import Mathlib

/-!
# Verification of the World Data Bank API connector

Shallow embedding of src/connector.py (function `paged_request_iter`, class
`WorldDataBankConnector`) together with the pandas operations it relies on
(`json_normalize` with sep="_", column rename to uppercase, `DataFrame.to_sql`
with if_exists="append"), and of the mock fixtures in src/test_connector.py.

Python machine-level effects are made explicit:
* the mutable `session.params["page"]` counter is threaded as an `Int`;
* the generator loop of `paged_request_iter` becomes a fuel-indexed recursive
  function returning the yielded batches, the final page counter, and the
  trace of HTTP requests issued;
* a raised `HTTPError` from `raise_for_status` becomes the
  `QResult.transportError` outcome, which discards partially-yielded batches
  exactly as the propagating exception does in `queary_json`;
* the SQLite table written by `to_sql` becomes an explicit `Table` value.
-/

namespace WorldDataBank

/-- A JSON scalar or nested object, as found in the API record payloads. -/
inductive JVal where
  | s (v : String)
  | i (v : Int)
  | obj (fields : List (String × JVal))
deriving Repr

/-- A record from a page payload: a JSON object given as an ordered field list. -/
abbrev Rec := List (String × JVal)

/-- True when the value is a nested JSON object. -/
def JVal.isObj : JVal → Bool
  | .obj _ => true
  | _ => false

mutual

/-- Flattening of one field at nesting level 1 or deeper, with the
underscore-joined key accumulated in `key` (pandas `nested_to_record` with
sep="_": at level at least 1, each key is popped and re-added in iteration
order, so fields expand in place). -/
def flattenVal (key : String) : JVal → List (String × JVal)
  | .obj fs => flattenFields key fs
  | v => [(key, v)]

/-- Flattening of a field list at nesting level 1 or deeper. -/
def flattenFields (pre : String) : List (String × JVal) → List (String × JVal)
  | [] => []
  | (k, v) :: rest => flattenVal (pre ++ "_" ++ k) v ++ flattenFields pre rest

end

/-- pandas `nested_to_record` at the top level: scalar fields keep their key
and position; each nested-object field is popped and its flattened fields are
appended at the end, in the order the object fields appear. -/
def nested_to_record (fields : Rec) : Rec :=
  fields.filter (fun kv => !kv.2.isObj) ++
    (fields.map (fun kv =>
      match kv.2 with
      | .obj fs => flattenFields kv.1 fs
      | _ => [])).flatten

/-- Metadata element of a two-part World Data Bank page response. The code
reads only `page` and `pages`. -/
structure PageInfo where
  page : Int
  pages : Int
  per_page : Int
  total : Int
  sourceid : String
  lastupdated : String
deriving Repr, DecidableEq

/-- Outcome of one `session.get` + `raise_for_status` + `json()` round trip:
either a parsed two-part `[info, data]` body, or an HTTPError raised by
`raise_for_status` carrying the non-success status code. -/
inductive FetchResult where
  | ok (info : PageInfo) (data : List Rec)
  | httpError (status : Nat)
deriving Repr

/-- One HTTP GET issued through the session: target url, the `page` query
parameter taken from `session.params`, and the timeout passed to `get`. -/
structure Request where
  url : String
  page : Int
  timeout : Nat
deriving Repr, DecidableEq

/-- Result of running a piece of the pipeline: normal value, propagated
HTTPError status, propagated sqlite OperationalError from the storage layer,
or fuel exhaustion (the loop did not terminate within the allotted number of
iterations). The transport loop itself never produces `operationalError`;
only the `to_sql` step of `queary_to_sql` does. -/
inductive QResult (α : Type) where
  | ok (val : α)
  | transportError (status : Nat)
  | operationalError
  | timeout
deriving Repr

/-- On success, prepend the batch yielded by the current iteration; an error
outcome propagates unchanged, dropping batches already yielded, exactly as the
exception escaping the generator discards the partial `data` list in
`queary_json`. -/
def consBatch (data : List Rec) : QResult (List (List Rec)) → QResult (List (List Rec))
  | .ok bs => .ok (data :: bs)
  | .transportError st => .transportError st
  | .operationalError => .operationalError
  | .timeout => .timeout

/-- Default of the `timeout` parameter of `paged_request_iter` (`timeout=1`);
the parameter is accepted but the body hardcodes `session.get(url, timeout=5)`. -/
def timeout_default : Nat := 1

/-- `paged_request_iter(session, url, timeout)` from src/connector.py, with the
session page counter passed as `page` and the loop bounded by `fuel`.
Per iteration: issue `session.get(url, timeout=5)`; `raise_for_status` turns a
non-success status into a propagated error; parse `[info, data]`; yield `data`;
stop if `info["page"] >= info["pages"]`, otherwise increment the page counter
and continue. Returns the yielded batches, the final page counter, and the
request trace. -/
def paged_request_iter (server : Request → FetchResult) (url : String)
    (timeout : Nat) (page : Int) (fuel : Nat) :
    QResult (List (List Rec)) × Int × List Request :=
  match fuel with
  | 0 => (.timeout, page, [])
  | fuel + 1 =>
    let req : Request := { url := url, page := page, timeout := 5 }
    match server req with
    | .httpError st => (.transportError st, page, [req])
    | .ok info data =>
      if info.page ≥ info.pages then
        (.ok [data], page, [req])
      else
        match paged_request_iter server url timeout (page + 1) fuel with
        | (r, fp, tr) => (consBatch data r, fp, req :: tr)

/-- `WorldDataBankConnector._make_date_param(start, end)`: Python evaluates
`":".join([str(start), str(end)]) if end else str(start)`, so the joined range
is produced only when `end` is truthy — a supplied integer 0 is falsy and
behaves like the absent (None) default. -/
def make_date_param (start : Int) (endDate : Option Int) : String :=
  match endDate with
  | some e => if e ≠ 0 then toString start ++ ":" ++ toString e else toString start
  | none => toString start

/-- Default of the `country` parameter of `_make_url` and of the constructor
(`country="all"`). -/
def country_default : String := "all"

/-- `WorldDataBankConnector._make_url(series, country)`. -/
def make_url (series country : String) : String :=
  "https://api.worldbank.org/v2/country/" ++ country ++ "/indicator/" ++ series

/-- The connector state built by `WorldDataBankConnector.__init__`: the session
query parameters (`format`, `date`, `page`) and the target url. -/
structure Connector where
  formatParam : String
  dateParam : String
  pageParam : Int
  url : String
deriving Repr, DecidableEq

/-- `WorldDataBankConnector.__init__(session, series, start_date, end_date,
country)`: sets `session.params` to format="json", the constructed date
parameter and page=1, and stores the constructed url. -/
def Connector.init (series : String) (start_date : Int) (end_date : Option Int)
    (country : String) : Connector :=
  { formatParam := "json"
    dateParam := make_date_param start_date end_date
    pageParam := 1
    url := make_url series country }

/-- `WorldDataBankConnector._refresh`: sets the page query parameter back
to 1, whatever its current value. -/
def refresh : Int → Int := fun _ => 1

/-- `WorldDataBankConnector.queary_json`: refresh the page counter to 1, drain
`paged_request_iter` (called with the default timeout), and concatenate the
page batches with `data.extend(page)`. Returns the concatenated records and
the final page counter left on the session. -/
def queary_json (server : Request → FetchResult) (url : String) (page0 : Int)
    (fuel : Nat) : QResult (List Rec) × Int :=
  match paged_request_iter server url timeout_default (refresh page0) fuel with
  | (.ok bs, fp, _) => (.ok bs.flatten, fp)
  | (.transportError st, fp, _) => (.transportError st, fp)
  | (.operationalError, fp, _) => (.operationalError, fp)
  | (.timeout, fp, _) => (.timeout, fp)

/-- A pandas DataFrame produced by `json_normalize`: named columns and rows of
optional cells (a cell is `none` when the record lacks that column). -/
structure Frame where
  columns : List String
  rows : List (List (Option JVal))
deriving Repr

/-- Column list of `pandas.json_normalize`: the flattened keys of every
record, in order of first appearance. -/
def collectCols (flat : List Rec) : List String :=
  flat.foldl
    (fun acc r =>
      r.foldl (fun acc kv => if acc.contains kv.1 then acc else acc ++ [kv.1]) acc)
    []

/-- First value bound to a key in a flattened record. -/
def lookupVal (r : Rec) (c : String) : Option JVal :=
  (r.find? (fun kv => kv.1 == c)).map (fun kv => kv.2)

/-- `pandas.json_normalize(data, sep="_")`: flatten each record and lay the
results out as one row per record over the first-appearance column list. -/
def json_normalize (data : List Rec) : Frame :=
  let flat := data.map nested_to_record
  let cols := collectCols flat
  { columns := cols, rows := flat.map (fun r => cols.map (lookupVal r)) }

/-- Python `str.upper()` on the ASCII column names arising here: uppercase
every character. -/
def upperName (s : String) : String := ⟨s.data.map Char.toUpper⟩

/-- `df.rename({x: x.upper() for x in df.columns}, axis=1)`. -/
def renameUpper (f : Frame) : Frame :=
  { columns := f.columns.map upperName, rows := f.rows }

/-- The SQLite table written by `to_sql`: a column schema and appended rows. -/
structure Table where
  columns : List String
  rows : List (List (Option JVal))
deriving Repr

/-- Outcome of `df.to_sql`: the table state on success, or a raised sqlite
OperationalError, which commits nothing. -/
inductive ToSqlResult where
  | ok (t : Table)
  | operationalError
deriving Repr

/-- `df.to_sql(table_name, db_conn, if_exists="append", index=False)`.
When the table does not exist, CREATE TABLE runs from the frame columns; a
frame with no columns makes the CREATE statement an OperationalError and
nothing is committed. When the table exists, the frame rows are inserted by an
INSERT statement listing the frame columns (pandas skips the INSERT entirely
for a frame with no rows): a frame column absent from the table schema — or an
empty column list with rows to insert — is an OperationalError on sqlite and
nothing is committed; otherwise each inserted row is laid out over the table
schema, table columns absent from the frame storing NULL. Existing rows are
never touched. All callers here pass uppercased names, so names are compared
exactly. -/
def to_sql_append (db : Option Table) (f : Frame) : ToSqlResult :=
  match db with
  | none =>
    if f.columns.isEmpty then .operationalError
    else .ok { columns := f.columns, rows := f.rows }
  | some t =>
    if f.rows.isEmpty then .ok t
    else if !f.columns.isEmpty && f.columns.all (fun c => t.columns.contains c) then
      .ok { columns := t.columns
            rows := t.rows ++ f.rows.map (fun row =>
              t.columns.map (fun c =>
                match f.columns.findIdx? (fun c2 => c2 == c) with
                | some i => row.getD i none
                | none => none)) }
    else .operationalError

/-- `WorldDataBankConnector.queary_to_sql(db_conn, table_name)`: run
`queary_json`, normalize the records into a frame, uppercase the column names,
and append to the table. On a propagated transport error the write is never
reached; on an OperationalError raised by `to_sql` nothing is committed. In
both cases the table keeps its prior state. Returns the outcome, the table
state after the call, and the final page counter. -/
def queary_to_sql (server : Request → FetchResult) (url : String) (page0 : Int)
    (db : Option Table) (fuel : Nat) : QResult Unit × Option Table × Int :=
  match queary_json server url page0 fuel with
  | (.ok data, fp) =>
    match to_sql_append db (renameUpper (json_normalize data)) with
    | .ok t => (.ok (), some t, fp)
    | .operationalError => (.operationalError, db, fp)
  | (.transportError st, fp) => (.transportError st, db, fp)
  | (.operationalError, fp) => (.operationalError, db, fp)
  | (.timeout, fp) => (.timeout, db, fp)

/-! ## Fixtures from src/test_connector.py -/

/-- Metadata element of fixture `page1`. -/
def page1_info : PageInfo :=
  { page := 1, pages := 2, per_page := 1, total := 1, sourceid := "2",
    lastupdated := "2024-05-30" }

/-- The single record of fixture `page1`: Canada, series SP.POP.TOTL, 2000. -/
def record_can : Rec :=
  [("indicator", .obj [("id", .s "SP.POP.TOTL"), ("value", .s "Population, total")]),
   ("country", .obj [("id", .s "CA"), ("value", .s "Canada")]),
   ("countryiso3code", .s "CAN"),
   ("date", .s "2000"),
   ("value", .i 30685730),
   ("unit", .s ""),
   ("obs_status", .s ""),
   ("decimal", .i 0)]

/-- Records element of fixture `page1`. -/
def page1_records : List Rec := [record_can]

/-- Metadata element of fixture `page2`. -/
def page2_info : PageInfo :=
  { page := 2, pages := 2, per_page := 1, total := 1, sourceid := "2",
    lastupdated := "2024-05-30" }

/-- The single record of fixture `page2`: the United States, same series. -/
def record_usa : Rec :=
  [("indicator", .obj [("id", .s "SP.POP.TOTL"), ("value", .s "Population, total")]),
   ("country", .obj [("id", .s "US"), ("value", .s "United States")]),
   ("countryiso3code", .s "USA"),
   ("date", .s "2000"),
   ("value", .i 282162411),
   ("unit", .s ""),
   ("obs_status", .s ""),
   ("decimal", .i 0)]

/-- Records element of fixture `page2`. -/
def page2_records : List Rec := [record_usa]

/-- `MockSession.get` from src/test_connector.py: serves fixture `page1` for
page 1 and fixture `page2` for page 2, keyed on the page query parameter of
the request. (For larger pages the Python mock is defective — its bounds
check `int(idx > len(pages))` never fires and `pages[idx]` raises an
IndexError; no test or claim reaches those pages, modelled as an error.) -/
def mockServer : Request → FetchResult := fun r =>
  if r.page = 1 then .ok page1_info page1_records
  else if r.page = 2 then .ok page2_info page2_records
  else .httpError 500

/-- Expected column names of the loaded table (`db_columns` in the tests). -/
def db_columns : List String :=
  ["COUNTRYISO3CODE", "DATE", "VALUE", "UNIT", "OBS_STATUS", "DECIMAL",
   "INDICATOR_ID", "INDICATOR_VALUE", "COUNTRY_ID", "COUNTRY_VALUE"]

/-- Expected rows of the loaded table (`db_select_all` in the tests), laid out
over `db_columns`. -/
def db_select_all : List (List (Option JVal)) :=
  [[some (.s "CAN"), some (.s "2000"), some (.i 30685730), some (.s ""),
    some (.s ""), some (.i 0), some (.s "SP.POP.TOTL"),
    some (.s "Population, total"), some (.s "CA"), some (.s "Canada")],
   [some (.s "USA"), some (.s "2000"), some (.i 282162411), some (.s ""),
    some (.s ""), some (.i 0), some (.s "SP.POP.TOTL"),
    some (.s "Population, total"), some (.s "US"), some (.s "United States")]]

/-- The distinct nested field paths of the fixture record shape. -/
def fixture_paths : List (List String) :=
  [["countryiso3code"], ["date"], ["value"], ["unit"], ["obs_status"],
   ["decimal"], ["indicator", "id"], ["indicator", "value"],
   ["country", "id"], ["country", "value"]]

/-! ## Helper lemmas about the page loop -/

/-- Running the loop from page `k` over a server that answers every page
`k ≤ p ≤ P` with metadata `page = p`, `pages = P` yields one batch per page in
`[k, P]` and leaves the counter at `P`, given enough fuel. -/
theorem paged_iter_ok_from (server : Request → FetchResult) (u : String) (t : Nat)
    (infoF : Int → PageInfo) (dataF : Int → List Rec) (P : Int) :
    ∀ fuel, ∀ k : Int, 1 ≤ k → k ≤ P →
    (∀ p : Int, 1 ≤ p → p ≤ P →
      server { url := u, page := p, timeout := 5 } = .ok (infoF p) (dataF p)) →
    (∀ p : Int, 1 ≤ p → p ≤ P → (infoF p).page = p ∧ (infoF p).pages = P) →
    (P - k).toNat + 1 ≤ fuel →
    ∃ bs tr, paged_request_iter server u t k fuel = (.ok bs, P, tr) ∧
      bs.length = (P - k).toNat + 1 := by
  intro fuel
  induction fuel with
  | zero => intro k _ _ _ _ hfuel; omega
  | succ n ih =>
    intro k hk1 hkP hresp hinfo hfuel
    have hs := hresp k hk1 hkP
    have hi := hinfo k hk1 hkP
    by_cases hend : (infoF k).page ≥ (infoF k).pages
    · have hEq : k = P := by omega
      subst hEq
      refine ⟨[dataF k], [{ url := u, page := k, timeout := 5 }], ?_, by simp⟩
      simp only [paged_request_iter, hs, if_pos hend]
    · have hlt : k < P := by omega
      obtain ⟨bs, tr, heq, hlen⟩ :=
        ih (k + 1) (by omega) (by omega) hresp hinfo (by omega)
      refine ⟨dataF k :: bs, { url := u, page := k, timeout := 5 } :: tr, ?_, ?_⟩
      · simp only [paged_request_iter, hs, if_neg hend, heq, consBatch]
      · simp only [List.length_cons, hlen]
        omega

/-- Running the loop from page `j` over a server that answers pages below `k`
normally and fails at page `k` with status `s` propagates the error with the
counter left at `k`, given enough fuel. -/
theorem paged_iter_error_from (server : Request → FetchResult) (u : String) (t : Nat)
    (infoF : Int → PageInfo) (dataF : Int → List Rec) (P k : Int) (s : Nat) :
    ∀ fuel, ∀ j : Int, 1 ≤ j → j ≤ k → k ≤ P →
    (∀ p : Int, 1 ≤ p → p < k →
      server { url := u, page := p, timeout := 5 } = .ok (infoF p) (dataF p)) →
    (∀ p : Int, 1 ≤ p → p < k → (infoF p).page = p ∧ (infoF p).pages = P) →
    server { url := u, page := k, timeout := 5 } = .httpError s →
    (k - j).toNat + 1 ≤ fuel →
    ∃ tr, paged_request_iter server u t j fuel = (.transportError s, k, tr) := by
  intro fuel
  induction fuel with
  | zero => intro j _ _ _ _ _ _ hfuel; omega
  | succ n ih =>
    intro j hj1 hjk hkP hresp hinfo herr hfuel
    by_cases hEq : j = k
    · subst hEq
      refine ⟨[{ url := u, page := j, timeout := 5 }], ?_⟩
      simp only [paged_request_iter, herr]
    · have hlt : j < k := by omega
      have hs := hresp j hj1 hlt
      have hi := hinfo j hj1 hlt
      have hend : ¬ (infoF j).page ≥ (infoF j).pages := by omega
      obtain ⟨tr, heq⟩ :=
        ih (j + 1) (by omega) (by omega) hkP hresp hinfo herr (by omega)
      refine ⟨{ url := u, page := j, timeout := 5 } :: tr, ?_⟩
      simp only [paged_request_iter, hs, if_neg hend, heq, consBatch]

/-! ## Claim theorems -/

/-- C1: over a well-formed page sequence whose metadata reports `pages = P`
(each response carries `page` equal to the requested page, and `P ≥ 1`),
`paged_request_iter` started with the session page counter at 1 terminates,
yields exactly `P` record batches, and leaves the page counter at `P`. -/
theorem paged_iter_yields_all_pages (server : Request → FetchResult) (u : String)
    (t : Nat) (infoF : Int → PageInfo) (dataF : Int → List Rec) (P : Int) (fuel : Nat)
    (hP : 1 ≤ P)
    (hresp : ∀ p : Int, 1 ≤ p → p ≤ P →
      server { url := u, page := p, timeout := 5 } = .ok (infoF p) (dataF p))
    (hinfo : ∀ p : Int, 1 ≤ p → p ≤ P → (infoF p).page = p ∧ (infoF p).pages = P)
    (hfuel : P.toNat ≤ fuel) :
    ∃ bs tr, paged_request_iter server u t 1 fuel = (.ok bs, P, tr) ∧
      bs.length = P.toNat := by
  obtain ⟨bs, tr, heq, hlen⟩ :=
    paged_iter_ok_from server u t infoF dataF P fuel 1 le_rfl hP hresp hinfo (by omega)
  exact ⟨bs, tr, heq, by omega⟩

/-- Witness for C1: the two-page mock fixture yields 2 batches and ends with
the counter at 2. -/
theorem paged_iter_yields_all_pages_witness :
    ∃ bs tr, paged_request_iter mockServer "test/url" 1 1 2 =
      (.ok bs, 2, tr) ∧ bs.length = (2 : Int).toNat := by
  refine paged_iter_yields_all_pages mockServer "test/url" 1
    (fun p => if p = 1 then page1_info else page2_info)
    (fun p => if p = 1 then page1_records else page2_records)
    2 2 (by omega) ?_ ?_ (by omega)
  · intro p h1 h2
    have hp : p = 1 ∨ p = 2 := by omega
    rcases hp with hp | hp <;> subst hp <;> rfl
  · intro p h1 h2
    have hp : p = 1 ∨ p = 2 := by omega
    rcases hp with hp | hp <;> subst hp <;> exact ⟨rfl, rfl⟩

/-- C5: when the very first fetched page reports `page ≥ pages`, the loop
yields exactly that one batch and terminates at once. -/
theorem paged_iter_single_batch (server : Request → FetchResult) (u : String)
    (t : Nat) (p : Int) (fuel : Nat) (info : PageInfo) (data : List Rec)
    (hresp : server { url := u, page := p, timeout := 5 } = .ok info data)
    (hlast : info.page ≥ info.pages) :
    paged_request_iter server u t p (fuel + 1) =
      (.ok [data], p, [{ url := u, page := p, timeout := 5 }]) := by
  simp only [paged_request_iter, hresp, if_pos hlast]

/-- Witness for C5: a server whose first response reports page 2 of 2 makes
the loop stop after a single batch. -/
theorem paged_iter_single_batch_witness :
    paged_request_iter (fun _ => .ok page2_info page2_records) "test/url" 1 1 (3 + 1) =
      (.ok [page2_records], 1, [{ url := "test/url", page := 1, timeout := 5 }]) :=
  paged_iter_single_batch (fun _ => .ok page2_info page2_records) "test/url" 1 1 3
    page2_info page2_records rfl (by decide)

/-- C3: if the fetch of page `k` returns a non-success status while all
earlier pages answered normally, the top-level query-to-storage operation
propagates the transport error, fetches no further pages, and leaves the
table exactly as it was. -/
theorem queary_to_sql_error_no_commit (server : Request → FetchResult) (u : String)
    (page0 : Int) (db : Option Table) (infoF : Int → PageInfo)
    (dataF : Int → List Rec) (P k : Int) (s : Nat) (fuel : Nat)
    (hk1 : 1 ≤ k) (hkP : k ≤ P)
    (hresp : ∀ p : Int, 1 ≤ p → p < k →
      server { url := u, page := p, timeout := 5 } = .ok (infoF p) (dataF p))
    (hinfo : ∀ p : Int, 1 ≤ p → p < k → (infoF p).page = p ∧ (infoF p).pages = P)
    (herr : server { url := u, page := k, timeout := 5 } = .httpError s)
    (hfuel : k.toNat ≤ fuel) :
    queary_to_sql server u page0 db fuel = (.transportError s, db, k) := by
  obtain ⟨tr, heq⟩ :=
    paged_iter_error_from server u timeout_default infoF dataF P k s fuel 1
      le_rfl hk1 hkP hresp hinfo herr (by omega)
  simp only [queary_to_sql, queary_json, refresh, heq]

/-- Witness for C3: page 1 answers normally, page 2 fails with status 404;
the operation reports the error and the table (here: absent) is untouched. -/
theorem queary_to_sql_error_no_commit_witness :
    queary_to_sql
      (fun r => if r.page = 1 then .ok page1_info page1_records else .httpError 404)
      "test/url" 1 none 2 = (.transportError 404, none, 2) := by
  refine queary_to_sql_error_no_commit
    (fun r => if r.page = 1 then .ok page1_info page1_records else .httpError 404)
    "test/url" 1 none (fun _ => page1_info) (fun _ => page1_records)
    2 2 404 2 (by omega) (by omega) ?_ ?_ rfl (by omega)
  · intro p h1 h2
    have hp : p = 1 := by omega
    subst hp; rfl
  · intro p h1 h2
    have hp : p = 1 := by omega
    subst hp; exact ⟨rfl, rfl⟩

/-- The value of the `timeout` parameter is never read by the loop body. -/
theorem paged_iter_timeout_irrelevant (server : Request → FetchResult) (u : String)
    (t1 t2 : Nat) : ∀ fuel, ∀ page : Int,
    paged_request_iter server u t1 page fuel = paged_request_iter server u t2 page fuel := by
  intro fuel
  induction fuel with
  | zero => intro page; rfl
  | succ n ih =>
    intro page
    simp only [paged_request_iter]
    cases server { url := u, page := page, timeout := 5 } with
    | httpError st => rfl
    | ok info data =>
      by_cases h : info.page ≥ info.pages
      · simp only [if_pos h]
      · simp only [if_neg h, ih (page + 1)]

/-- Every request the loop issues carries the hardcoded timeout 5. -/
theorem paged_iter_trace_hardcoded (server : Request → FetchResult) (u : String)
    (t : Nat) : ∀ fuel, ∀ page : Int,
    ((paged_request_iter server u t page fuel).2.2).all (fun r => r.timeout == 5) = true := by
  intro fuel
  induction fuel with
  | zero => intro page; rfl
  | succ n ih =>
    intro page
    simp only [paged_request_iter]
    cases server { url := u, page := page, timeout := 5 } with
    | httpError st => rfl
    | ok info data =>
      by_cases h : info.page ≥ info.pages
      · simp [if_pos h]
      · have hrec := ih (page + 1)
        rcases heq : paged_request_iter server u t (page + 1) n with ⟨r, fp, tr⟩
        rw [heq] at hrec
        simp only [if_neg h, heq]
        simpa using hrec

/-- C10: the `timeout` parameter of `paged_request_iter` has no effect: with
otherwise identical inputs, any two timeout values produce identical outcomes,
page counters and request traces, and every issued request carries the
hardcoded timeout 5 from `session.get(url, timeout=5)`. -/
theorem timeout_param_has_no_effect (server : Request → FetchResult) (u : String)
    (t1 t2 : Nat) (page : Int) (fuel : Nat) :
    paged_request_iter server u t1 page fuel = paged_request_iter server u t2 page fuel ∧
    ((paged_request_iter server u t1 page fuel).2.2).all (fun r => r.timeout == 5) = true :=
  ⟨paged_iter_timeout_irrelevant server u t1 t2 fuel page,
   paged_iter_trace_hardcoded server u t1 fuel page⟩

/-- C6: `queary_json` resets the shared page counter to 1 before draining, so
a second invocation on the same connector state — whatever counter the first
drain left behind — returns exactly the same records and final counter. -/
theorem queary_json_restart_idempotent (server : Request → FetchResult)
    (u : String) (fuel : Nat) (p : Int) :
    queary_json server u ((queary_json server u p fuel).2) fuel =
      queary_json server u p fuel ∧ refresh p = 1 :=
  ⟨rfl, rfl⟩

/-- C9: the connector always targets
`https://api.worldbank.org/v2/country/{country}/indicator/{series}`, and the
omitted country argument defaults to "all". -/
theorem make_url_spec (series country : String) (start : Int) (e : Option Int) :
    (Connector.init series start e country).url =
      "https://api.worldbank.org/v2/country/" ++ country ++ "/indicator/" ++ series ∧
    (Connector.init series start e country_default).url =
      "https://api.worldbank.org/v2/country/all/indicator/" ++ series :=
  ⟨rfl, rfl⟩

/-- Counterexample to C4 as stated: the end date 0 is supplied (non-absent),
yet Python evaluates `if end` on the falsy integer 0 and produces the single
start token instead of "2000:0". -/
theorem make_date_param_zero_end_cex :
    make_date_param 2000 (some 0) = "2000" ∧ make_date_param 2000 (some 0) ≠ "2000:0" :=
  ⟨rfl, by decide⟩

/-- C4 (amended): for every present nonzero end date the date parameter is
"start:end"; when the end date is absent — or supplied as the falsy integer
0 — it is exactly str(start). -/
theorem make_date_param_spec (start : Int) :
    (∀ e : Int, e ≠ 0 →
      make_date_param start (some e) = toString start ++ ":" ++ toString e) ∧
    make_date_param start none = toString start ∧
    make_date_param start (some 0) = toString start := by
  refine ⟨?_, rfl, rfl⟩
  intro e he
  simp [make_date_param, he]

/-- Witness for C4 (amended): start 2000 with end 2020 gives "2000:2020". -/
theorem make_date_param_spec_witness :
    make_date_param 2000 (some 2020) = toString (2000 : Int) ++ ":" ++ toString (2020 : Int) :=
  (make_date_param_spec 2000).1 2020 (by decide)

/-- One flattened row per input record. -/
theorem json_normalize_row_count (data : List Rec) :
    (json_normalize data).rows.length = data.length := by
  simp [json_normalize]

/-- C7: whenever loading batch A (creating the table) and then loading batch B
into that same table both complete successfully, the result holds exactly the
|A| + |B| appended rows — no deduplication occurs, even for identical
records, since every inserted row is kept — and the rows appended by the
first load survive the second load unchanged, as its prefix. (A second load
whose flattened columns do not fit the existing schema raises an
OperationalError instead and commits nothing.) -/
theorem load_is_additive (A B : List Rec) (t1 t2 : Table)
    (h1 : to_sql_append none (renameUpper (json_normalize A)) = .ok t1)
    (h2 : to_sql_append (some t1) (renameUpper (json_normalize B)) = .ok t2) :
    t2.rows.length = A.length + B.length ∧
    t2.rows.take t1.rows.length = t1.rows ∧
    t1.rows.length = A.length := by
  have hlenA : (renameUpper (json_normalize A)).rows.length = A.length := by
    simpa [renameUpper] using json_normalize_row_count A
  have hlenB : (renameUpper (json_normalize B)).rows.length = B.length := by
    simpa [renameUpper] using json_normalize_row_count B
  simp only [to_sql_append] at h1 h2
  split at h1
  · cases h1
  · cases h1
    split at h2
    next hr =>
      -- the second frame has no rows: pandas skips the INSERT, B is empty
      cases h2
      have hB : B.length = 0 := by
        rw [← hlenB, List.isEmpty_iff.mp hr, List.length_nil]
      simp [hlenA, hB]
    next =>
      split at h2
      · cases h2
        refine ⟨?_, ?_, hlenA⟩
        · simp only [List.length_append, List.length_map, hlenA, hlenB]
        · exact List.take_left _ _
      · cases h2

/-- Witness for C7: loading the CAN record and then loading the identical
batch again both succeed and leave two copies, the first untouched. -/
theorem load_is_additive_witness :
    ∃ t1 t2,
      to_sql_append none (renameUpper (json_normalize [record_can])) = .ok t1 ∧
      to_sql_append (some t1) (renameUpper (json_normalize [record_can])) = .ok t2 ∧
      t2.rows.length = 2 ∧ t2.rows.take t1.rows.length = t1.rows :=
  ⟨_, _, rfl, rfl,
   (load_is_additive [record_can] [record_can] _ _ rfl rfl).1,
   (load_is_additive [record_can] [record_can] _ _ rfl rfl).2.1⟩

/-- C8: flattening the fixture records produces a single-level mapping (no
value is still a nested object); the keys are exactly the underscore-joined
nested field paths, their uppercased forms are the stored column names, and
the map from distinct paths to uppercased column names never collides. The
flattening itself is a pure function, hence deterministic. -/
theorem flattening_upper_injective :
    (nested_to_record record_can).map Prod.fst =
      fixture_paths.map (fun p => String.intercalate "_" p) ∧
    (nested_to_record record_usa).map Prod.fst =
      fixture_paths.map (fun p => String.intercalate "_" p) ∧
    (nested_to_record record_can).map (fun kv => upperName kv.1) = db_columns ∧
    fixture_paths.Nodup ∧
    (fixture_paths.map (fun p => upperName (String.intercalate "_" p))).Nodup ∧
    (nested_to_record record_can).all (fun kv => !kv.2.isObj) = true ∧
    (nested_to_record record_usa).all (fun kv => !kv.2.isObj) = true :=
  ⟨rfl, rfl, by decide, by decide, by decide, rfl, rfl⟩

/-- C2: on the two-page mock fixture, draining yields exactly the two records
in page order (Canada, then the United States), and loading them into an
empty table produces the 2-row table with columns `db_columns` and rows
`db_select_all`, including COUNTRYISO3CODE/DATE/VALUE and the flattened
INDICATOR and COUNTRY columns, with the expected values for CAN and USA. -/
theorem two_page_fixture_query :
    queary_json mockServer (make_url "SP.POP.TOTL" country_default) 1 2 =
      (.ok [record_can, record_usa], 2) ∧
    queary_to_sql mockServer (make_url "SP.POP.TOTL" country_default) 1 none 2 =
      (.ok (), some { columns := db_columns, rows := db_select_all }, 2) :=
  ⟨rfl, rfl⟩

end WorldDataBank
